import Mathlib

/-!
Verification of the UCNet_Spatial.py training program (steganalysis network).
Shallow embedding of the data model and operations of the source file,
followed by theorems settling the frozen claims about it.
-/

set_option maxHeartbeats 1000000

namespace UCNet

/-! ## Filter bank (build_filters, lines 50-69)

A 2-D kernel is a matrix of rationals with explicit row/column counts.
The hand-crafted SRM list all_normalized_hpf_list is imported from
srm_filter_kernel.py, which is not part of src/, so the filter-bank
functions are parametrised by that list; likewise cv2.getGaborKernel is an
external library routine, so the Gabor generator is a parameter.  Every
theorem below therefore holds for every possible content of both. -/

/-- A 2-D kernel: row count, column count, and the entry at each position
(entries outside the stated bounds are irrelevant). -/
structure Mat where
  rows : Nat
  cols : Nat
  entry : Nat → Nat → ℚ

/-- The np.pad call of build_filters (lines 57-61): pad a kernel to 5 x 5
with (5 - size) / 2 zeros on the top/left and the remainder on the
bottom/right, keeping the original values in the middle block. -/
def padTo5 (m : Mat) : Mat where
  rows := 5
  cols := 5
  entry := fun i j =>
    if (5 - m.rows) / 2 ≤ i ∧ i < (5 - m.rows) / 2 + m.rows
       ∧ (5 - m.cols) / 2 ≤ j ∧ j < (5 - m.cols) / 2 + m.cols
    then m.entry (i - (5 - m.rows) / 2) (j - (5 - m.cols) / 2)
    else 0

/-- The sigma list [0.5, 1.0] of build_filters, indexed as sigma[k]. -/
def sigmaOf (k : Nat) : ℚ := if k = 0 then 1 / 2 else 1

/-- The Gabor part of build_filters (lines 63-68): for each of the 8
orientations theta in arange(0, pi, pi/8), for each of the 2 sigma values,
for each of the 2 phase values, one cv2.getGaborKernel result.  The
generator gabor abstracts cv2.getGaborKernel with ksize (5,5),
lambda = sigma/0.56, gamma = 0.5, ktype CV_32F; it receives the sigma
value, the orientation index and the phase index. -/
def gaborFilters (gabor : ℚ → Nat → Nat → Mat) : List Mat :=
  (((List.range 8).map (fun t =>
      (((List.range 2).map (fun k =>
          (List.range 2).map (fun j => gabor (sigmaOf k) t j))).flatten))).flatten)

/-- build_filters (lines 50-69): the padded hand-crafted high-pass filters
in order, followed by the 32 Gabor kernels. -/
def build_filters (gabor : ℚ → Nat → Nat → Mat) (hpfList : List Mat) : List Mat :=
  hpfList.map padTo5 ++ gaborFilters gabor

/-! ## TLU, HPF and the per-channel preprocessing of Net.forward -/

/-- An image plane: a rational value at every integer coordinate.  Inputs
are taken to be zero outside their support, which realises the zero
padding of the convolution. -/
abbrev Plane := ℤ → ℤ → ℚ

/-- A 5 x 5 convolution kernel. -/
abbrev Kernel5 := Fin 5 → Fin 5 → ℚ

/-- One output plane of nn.Conv2d(1, 62, kernel_size=5, padding=2,
bias=False) for a single kernel: same-size convolution with zero padding. -/
def conv5 (w : Kernel5) (x : Plane) : Plane :=
  fun i j => ∑ u : Fin 5, ∑ v : Fin 5,
    w u v * x (i + (u : ℕ) - 2) (j + (v : ℕ) - 2)

/-- torch.clamp(input, min=lo, max=hi). -/
def torch_clamp (x lo hi : ℚ) : ℚ := min (max x lo) hi

/-- TLU.forward (lines 44-47): clamp to [-threshold, threshold]. -/
def TLU.forward (threshold : ℚ) (x : ℚ) : ℚ := torch_clamp x (-threshold) threshold

/-- HPF.forward (lines 84-88): the 62-kernel convolution followed by the
TLU with threshold 2 (HPF.__init__ builds TLU(2.0)). -/
def HPF.forward (w : Fin 62 → Kernel5) (x : Plane) : Fin 62 → Plane :=
  fun k i j => TLU.forward 2 (conv5 (w k) x i j)

/-- The preprocessing section of Net.forward (lines 190-199): the three
color channels are separated, the shared HPF module self.pre is applied to
each, and the results are concatenated along the channel dimension:
output channel c comes from kernel c % 62 applied to color channel c / 62. -/
def Net.preprocess (w : Fin 62 → Kernel5) (input : Fin 3 → Plane) : Fin 186 → Plane :=
  fun c =>
    HPF.forward w (input ⟨(c : ℕ) / 62, by have := c.isLt; omega⟩)
      ⟨(c : ℕ) % 62, by have := c.isLt; omega⟩

/-! ## Parameters, initWeights and the optimizer param groups -/

/-- A framework parameter tensor: its value, its requires_grad flag and its
number of dimensions (tensor rank, used by the param-group split). -/
structure PyParam (α : Type) where
  value : α
  requires_grad : Bool
  dim : Nat
  deriving DecidableEq

/-- HPF.__init__ (lines 76-80): the filter-bank weight is an nn.Parameter
built from build_filters with requires_grad=False, viewed as a
62 x 1 x 5 x 5 tensor (rank 4). -/
def HPF_weight (gabor : ℚ → Nat → Nat → Mat) (hpfList : List Mat) : PyParam (List Mat) :=
  ⟨build_filters gabor hpfList, false, 4⟩

/-- The Conv2d branch of initWeights (lines 332-335): kaiming-reinitialise
the weight only when it requires grad. -/
def initWeights_conv {α : Type} (kaiming : α → α) (p : PyParam α) : PyParam α :=
  if p.requires_grad then ⟨kaiming p.value, p.requires_grad, p.dim⟩ else p

/-- The param-group construction of main (lines 482-488): parameters with
requires_grad are split into the weight-decay group (dim != 1) and the
rest group (dim == 1); parameters without requires_grad enter neither. -/
def param_groups {α : Type} (ps : List (PyParam α)) :
    List (PyParam α) × List (PyParam α) :=
  (ps.filter (fun p => p.requires_grad && (p.dim != 1)),
   ps.filter (fun p => p.requires_grad && (p.dim == 1)))

/-- One optimizer update on one parameter: SGD writes only parameters that
are in its param groups, i.e. exactly those with requires_grad. -/
def sgd_step {α : Type} (upd : α → α) (p : PyParam α) : PyParam α :=
  if p.requires_grad then ⟨upd p.value, p.requires_grad, p.dim⟩ else p

/-! ## AverageMeter (lines 214-228) -/

/-- AverageMeter: running value, average, sum and count.  The count is a
Python int; avg is the true division sum / count. -/
structure AverageMeter where
  val : ℚ
  avg : ℚ
  sum : ℚ
  count : Nat
  deriving DecidableEq

/-- AverageMeter.reset (lines 218-222): all fields zero. -/
def AverageMeter.reset : AverageMeter := ⟨0, 0, 0, 0⟩

/-- AverageMeter.update (lines 224-228): val := v, sum += v * n,
count += n, avg := sum / count. -/
def AverageMeter.update (m : AverageMeter) (v : ℚ) (n : Nat) : AverageMeter :=
  ⟨v, (m.sum + v * (n : ℚ)) / ((m.count + n : ℕ) : ℚ), m.sum + v * (n : ℚ), m.count + n⟩

/-- A fresh meter after a sequence of update(val, n) calls. -/
def runUpdates (us : List (ℚ × Nat)) : AverageMeter :=
  us.foldl (fun m u => m.update u.1 u.2) AverageMeter.reset

/-! ## evaluate (lines 294-329) -/

/-- One evaluated single image: the two output logits and the true label. -/
abbrev Sample := (ℚ × ℚ) × Nat

/-- output.max(1, keepdim=True)[1] on a 2-logit row: the index of the
first maximal logit. -/
def predClass (l0 l1 : ℚ) : Nat := if l0 < l1 then 1 else 0

/-- The per-batch contribution pred.eq(label).sum().item(). -/
def countCorrect (b : List Sample) : Nat :=
  (b.filter (fun s => predClass s.1.1 s.1.2 == s.2)).length

/-- The correct counter accumulated over the eval_loader batches. -/
def evalCorrect (batches : List (List Sample)) : Nat :=
  batches.foldl (fun acc b => acc + countCorrect b) 0

/-- accuracy = correct / (len(eval_loader.dataset) * 2), line 314, where
datasetLen is the number of cover/stego pairs in the held-out set. -/
def evalAccuracy (batches : List (List Sample)) (datasetLen : Nat) : ℚ :=
  ((evalCorrect batches : ℕ) : ℚ) / ((datasetLen : ℚ) * 2)

/-- The dictionary torch.save writes to PARAMS_PATH (lines 318-323). -/
structure AllState (M O : Type) where
  original_state : M
  optimizer_state : O
  epoch : ℤ
  deriving DecidableEq

/-- evaluate (lines 294-329): compute the accuracy over the loader, and
when accuracy > best_acc and epoch > TMP overwrite the checkpoint file
with the model state, optimizer state and epoch and return the accuracy;
otherwise leave the file alone and return best_acc. -/
def evaluate (M O : Type) (batches : List (List Sample)) (datasetLen : Nat)
    (epoch TMP : ℤ) (best_acc : ℚ) (modelState : M) (optState : O)
    (ckptFile : Option (AllState M O)) : ℚ × Option (AllState M O) :=
  if best_acc < evalAccuracy batches datasetLen ∧ TMP < epoch then
    (evalAccuracy batches datasetLen, some ⟨modelState, optState, epoch⟩)
  else
    (best_acc, ckptFile)

/-- The arguments of one evaluate call, for reasoning about a sequence of
calls threading best_acc and the checkpoint file. -/
structure EvalCall (M O : Type) where
  batches : List (List Sample)
  datasetLen : Nat
  epoch : ℤ
  tmp : ℤ
  modelState : M
  optState : O

/-- A sequence of evaluate calls threading (best_acc, checkpoint file). -/
def evalSequence (M O : Type) (calls : List (EvalCall M O))
    (st : ℚ × Option (AllState M O)) : ℚ × Option (AllState M O) :=
  calls.foldl
    (fun s c => evaluate M O c.batches c.datasetLen c.epoch c.tmp s.1 c.modelState c.optState s.2)
    st

/-! ## MyDataset.__getitem__ and the reshape in train (lines 244-248, 387-408) -/

/-- One dataset index: the decoded cover image and its stego version. -/
structure CoverStegoPair (Img : Type) where
  cover : Img
  stego : Img
  deriving DecidableEq

/-- MyDataset.__getitem__ (lines 387-408): data = np.stack([cover, stego]),
label = [0, 1]. -/
def MyDataset.getitem {Img : Type} (p : CoverStegoPair Img) : List Img × List Nat :=
  ([p.cover, p.stego], [0, 1])

/-- The data reshape of train (lines 246-247): a loaded batch of B pairs
(shape B x 2 x ...) flattened to 2B single images, preserving order. -/
def reshapeData {Img : Type} (batch : List (CoverStegoPair Img)) : List Img :=
  (batch.map (fun p => (MyDataset.getitem p).1)).flatten

/-- The label reshape of train (line 248): label.reshape(-1). -/
def reshapeLabel {Img : Type} (batch : List (CoverStegoPair Img)) : List Nat :=
  (batch.map (fun p => (MyDataset.getitem p).2)).flatten

/-! ## The epoch loop of main (lines 519-526) -/

/-- Line 33 of the source. -/
def EVAL_PRINT_FREQUENCY : Nat := 1

/-- Line 492 of the source. -/
def EPOCHS : Nat := 250

/-- The observable actions of one epoch of the training loop. -/
inductive TrainEvent where
  | schedStep (epoch : Nat)
  | trainPass (epoch : Nat)
  | adjustBn (epoch : Nat)
  | evalPass (epoch : Nat)
  deriving DecidableEq

/-- The body of the epoch loop (lines 520-526): scheduler.step(), the
training pass, then, when epoch % EVAL_PRINT_FREQUENCY == 0,
adjust_bn_stats followed by evaluate on the validation loader. -/
def epochBody (epoch : Nat) : List TrainEvent :=
  [TrainEvent.schedStep epoch, TrainEvent.trainPass epoch] ++
    (if epoch % EVAL_PRINT_FREQUENCY = 0
     then [TrainEvent.adjustBn epoch, TrainEvent.evalPass epoch] else [])

/-- The trace of for epoch in range(startEpoch, EPOCHS + 1) (line 519). -/
def trainingLoop (startEpoch : Nat) : List TrainEvent :=
  ((List.range (EPOCHS + 1 - startEpoch)).map (fun k => epochBody (startEpoch + k))).flatten

/-! ## Python name resolution for Net.__init__ and main

Net.__init__ (lines 177-181) refers to type1, type2, type3 while the file
defines Type1, Type2, Type3, and main (line 463) refers to
PARAMS_INIT_NAME which no statement of the program ever binds.  The
following small model runs a statement list, resolving the names each
statement reads against the module globals, the builtins and the local
bindings accumulated so far; the first statement that reads an unbound
name raises NameError there and nothing after it executes. -/

/-- One Python statement: a label, the names it reads, the locals it binds. -/
structure PyStep where
  label : String
  reads : List String
  writes : List String

/-- Run the statements in order: the result is the list of labels of the
statements that completed, and, when a statement read an unbound name,
the label of that statement together with the missing name (the NameError). -/
def runSteps : List String → List PyStep → List String × Option (String × String)
  | _, [] => ([], none)
  | env, s :: rest =>
    match s.reads.find? (fun n => !(env.contains n)) with
    | some missing => ([], some (s.label, missing))
    | none =>
      let r := runSteps (env ++ s.writes) rest
      (s.label :: r.1, r.2)

/-- The Python builtins the program touches. -/
def pythonBuiltins : List String :=
  ["float", "round", "int", "str", "len", "range", "list", "print",
   "enumerate", "super", "format", "type"]

/-- Every name bound at module level in UCNet_Spatial.py: the builtins, the
imports (lines 3-23), the module constants (lines 26-35) and the classes
and functions the file defines.  type1, type2, type3 and PARAMS_INIT_NAME
are not among them. -/
def moduleEnv : List String :=
  pythonBuiltins ++
  ["os", "argparse", "np", "cv2", "Path", "copy", "logging", "random", "sio",
   "time", "math", "torch", "nn", "optim", "Dataset", "DataLoader",
   "transforms", "Parameter", "F", "all_normalized_hpf_list",
   "IMAGE_SIZE", "BATCH_SIZE", "LR", "WEIGHT_DECAY", "TRAIN_FILE_COUNT",
   "TRAIN_PRINT_FREQUENCY", "EVAL_PRINT_FREQUENCY", "OUTPUT_PATH",
   "TLU", "build_filters", "HPF", "Type1", "Type2", "Type3", "Net",
   "AverageMeter", "train", "adjust_bn_stats", "evaluate", "initWeights",
   "AugData", "ToTensor", "MyDataset", "setLogger", "main", "myParseArgs"]

/-- The statements of Net.__init__ (lines 172-184) with the global names
each one reads. -/
def netInitSteps : List PyStep :=
  [⟨"self.pre", ["HPF"], []⟩,
   ⟨"self.group1", ["type1"], []⟩,
   ⟨"self.group2", ["type2"], []⟩,
   ⟨"self.group3", ["type3"], []⟩,
   ⟨"self.group4", ["type2"], []⟩,
   ⟨"self.group5", ["type1"], []⟩,
   ⟨"self.avg", ["nn"], []⟩,
   ⟨"self.fc1", ["nn"], []⟩]

/-- Running Net.__init__ under the module globals. -/
def netInitRun : List String × Option (String × String) :=
  runSteps moduleEnv netInitSteps

/-- The parsed command-line arguments (myParseArgs, lines 541-589). -/
structure Args where
  DATASET_INDEX : String
  STEGANOGRAPHY : String
  EMBEDDING_RATE : String
  gpuNum : String
  statePath : String

/-- The statements of main (lines 427-538) in order, each with the names it
reads and the locals it binds. -/
def mainSteps : List PyStep :=
  [⟨"statePath", ["args"], ["statePath"]⟩,
   ⟨"device", ["torch"], ["device"]⟩,
   ⟨"kwargs", [], ["kwargs"]⟩,
   ⟨"train_transform", ["transforms", "AugData", "ToTensor"], ["train_transform"]⟩,
   ⟨"eval_transform", ["transforms", "ToTensor"], ["eval_transform"]⟩,
   ⟨"DATASET_INDEX", ["args"], ["DATASET_INDEX"]⟩,
   ⟨"STEGANOGRAPHY", ["args"], ["STEGANOGRAPHY"]⟩,
   ⟨"EMBEDDING_RATE", ["args"], ["EMBEDDING_RATE"]⟩,
   ⟨"ALASKA_COVER_DIR", [], ["ALASKA_COVER_DIR"]⟩,
   ⟨"ALASKA_STEGO_DIR", ["STEGANOGRAPHY", "EMBEDDING_RATE"], ["ALASKA_STEGO_DIR"]⟩,
   ⟨"TRAIN_INDEX_PATH", [], ["TRAIN_INDEX_PATH"]⟩,
   ⟨"VALID_INDEX_PATH", [], ["VALID_INDEX_PATH"]⟩,
   ⟨"TEST_INDEX_PATH", [], ["TEST_INDEX_PATH"]⟩,
   ⟨"LOAD_RATE", ["float", "EMBEDDING_RATE"], ["LOAD_RATE"]⟩,
   ⟨"LOAD_RATE_round", ["round", "LOAD_RATE"], ["LOAD_RATE"]⟩,
   ⟨"PARAMS_NAME", ["STEGANOGRAPHY", "EMBEDDING_RATE", "DATASET_INDEX", "LR"], ["PARAMS_NAME"]⟩,
   ⟨"LOG_NAME", ["STEGANOGRAPHY", "EMBEDDING_RATE", "DATASET_INDEX", "LR"], ["LOG_NAME"]⟩,
   ⟨"PARAMS_PATH", ["os", "OUTPUT_PATH", "PARAMS_NAME"], ["PARAMS_PATH"]⟩,
   ⟨"LOG_PATH", ["os", "OUTPUT_PATH", "LOG_NAME"], ["LOG_PATH"]⟩,
   ⟨"PARAMS_INIT_PATH", ["os", "OUTPUT_PATH", "PARAMS_INIT_NAME"], ["PARAMS_INIT_PATH"]⟩,
   ⟨"setLogger_call", ["setLogger", "LOG_PATH"], []⟩,
   ⟨"mkdir", ["Path", "OUTPUT_PATH"], []⟩,
   ⟨"train_dataset", ["MyDataset", "TRAIN_INDEX_PATH", "ALASKA_COVER_DIR", "ALASKA_STEGO_DIR", "train_transform"], ["train_dataset"]⟩,
   ⟨"valid_dataset", ["MyDataset", "VALID_INDEX_PATH", "ALASKA_COVER_DIR", "ALASKA_STEGO_DIR", "eval_transform"], ["valid_dataset"]⟩,
   ⟨"test_dataset", ["MyDataset", "TEST_INDEX_PATH", "ALASKA_COVER_DIR", "ALASKA_STEGO_DIR", "eval_transform"], ["test_dataset"]⟩,
   ⟨"train_loader", ["DataLoader", "train_dataset", "BATCH_SIZE", "kwargs"], ["train_loader"]⟩,
   ⟨"valid_loader", ["DataLoader", "valid_dataset", "BATCH_SIZE", "kwargs"], ["valid_loader"]⟩,
   ⟨"test_loader", ["DataLoader", "test_dataset", "BATCH_SIZE", "kwargs"], ["test_loader"]⟩,
   ⟨"model", ["Net", "device"], ["model"]⟩,
   ⟨"model_apply_initWeights", ["model", "initWeights"], []⟩,
   ⟨"params", ["model"], ["params"]⟩,
   ⟨"param_split", ["params"], ["params_wd", "params_rest"]⟩,
   ⟨"param_groups", ["params_wd", "params_rest", "WEIGHT_DECAY"], ["param_groups"]⟩,
   ⟨"optimizer", ["optim", "param_groups", "LR"], ["optimizer"]⟩,
   ⟨"EPOCHS", [], ["EPOCHS"]⟩,
   ⟨"DECAY_EPOCH", [], ["DECAY_EPOCH"]⟩,
   ⟨"TMP", [], ["TMP"]⟩,
   ⟨"load_state_branch", ["statePath", "logging", "torch", "model", "optimizer"], ["startEpoch"]⟩,
   ⟨"scheduler", ["optim", "optimizer", "DECAY_EPOCH"], ["scheduler"]⟩,
   ⟨"best_acc", [], ["best_acc"]⟩,
   ⟨"training_loop", ["startEpoch", "EPOCHS", "scheduler", "train", "model", "device", "train_loader", "optimizer", "EVAL_PRINT_FREQUENCY", "adjust_bn_stats", "evaluate", "valid_loader", "best_acc", "PARAMS_PATH", "TMP"], []⟩,
   ⟨"load_best_and_test", ["torch", "PARAMS_PATH", "model", "optimizer", "adjust_bn_stats", "evaluate", "test_loader", "best_acc", "TMP"], []⟩]

/-- Running main(args) under the module globals: the function parameter
args is the only extra binding, whatever its field values. -/
def runMain (_a : Args) : List String × Option (String × String) :=
  runSteps (moduleEnv ++ ["args"]) mainSteps

/-! ## Helper lemmas -/

/-- Unfolding lemma for the padded entry. -/
theorem padTo5_entry (m : Mat) (i j : Nat) :
    (padTo5 m).entry i j =
      if (5 - m.rows) / 2 ≤ i ∧ i < (5 - m.rows) / 2 + m.rows
         ∧ (5 - m.cols) / 2 ≤ j ∧ j < (5 - m.cols) / 2 + m.cols
      then m.entry (i - (5 - m.rows) / 2) (j - (5 - m.cols) / 2)
      else 0 := rfl

/-- A parameter that never requires grad is fixed by any number of
optimizer steps. -/
theorem sgd_fold_fixed {α : Type} (upds : List (α → α)) (p : PyParam α)
    (h : p.requires_grad = false) :
    upds.foldl (fun q u => sgd_step u q) p = p := by
  induction upds with
  | nil => rfl
  | cons u rest ih =>
    have hs : sgd_step u p = p := by simp [sgd_step, h]
    simp [List.foldl_cons, hs, ih]

/-- One evaluate call never decreases the tracked best accuracy. -/
theorem evaluate_fst_le (M O : Type) (batches : List (List Sample))
    (datasetLen : Nat) (epoch TMP : ℤ) (best_acc : ℚ) (m : M) (o : O)
    (file : Option (AllState M O)) :
    best_acc ≤ (evaluate M O batches datasetLen epoch TMP best_acc m o file).1 := by
  unfold evaluate
  by_cases h : best_acc < evalAccuracy batches datasetLen ∧ TMP < epoch
  · rw [if_pos h]; exact le_of_lt h.1
  · rw [if_neg h]

/-- A sequence of evaluate calls never decreases the tracked best accuracy. -/
theorem evalSequence_fst_le (M O : Type) (calls : List (EvalCall M O)) :
    ∀ st : ℚ × Option (AllState M O), st.1 ≤ (evalSequence M O calls st).1 := by
  induction calls with
  | nil => intro st; exact le_refl _
  | cons c rest ih =>
    intro st
    have h1 := evaluate_fst_le M O c.batches c.datasetLen c.epoch c.tmp st.1
      c.modelState c.optState st.2
    have h2 := ih (evaluate M O c.batches c.datasetLen c.epoch c.tmp st.1
      c.modelState c.optState st.2)
    calc st.1 ≤ _ := h1
      _ ≤ _ := h2

/-- Field contents of an AverageMeter after a nonempty update sequence,
starting from an arbitrary meter. -/
theorem runUpdates_fields (us : List (ℚ × Nat)) (hne : us ≠ []) (m : AverageMeter) :
    (us.foldl (fun q u => q.update u.1 u.2) m).count = m.count + (us.map (fun u => u.2)).sum
    ∧ (us.foldl (fun q u => q.update u.1 u.2) m).sum
        = m.sum + (us.map (fun u => u.1 * (u.2 : ℚ))).sum
    ∧ (us.foldl (fun q u => q.update u.1 u.2) m).val = (us.getLast hne).1
    ∧ (us.foldl (fun q u => q.update u.1 u.2) m).avg
        = (us.foldl (fun q u => q.update u.1 u.2) m).sum
            / (((us.foldl (fun q u => q.update u.1 u.2) m).count : ℕ) : ℚ) := by
  induction us generalizing m with
  | nil => exact absurd rfl hne
  | cons u rest ih =>
    by_cases hr : rest = []
    · subst hr
      refine ⟨?_, ?_, rfl, rfl⟩
      · simp [AverageMeter.update]
      · simp [AverageMeter.update]
    · obtain ⟨h1, h2, h3, h4⟩ := ih hr (m.update u.1 u.2)
      refine ⟨?_, ?_, ?_, h4⟩
      · rw [List.foldl_cons, h1]
        simp [AverageMeter.update]
        omega
      · rw [List.foldl_cons, h2]
        simp [AverageMeter.update]
        ring
      · rw [List.foldl_cons, h3, List.getLast_cons hr]

/-- The per-epoch bodies of a range flatten to a list that contains the
body of each index as a contiguous segment. -/
theorem flatten_map_range_split {α : Type} (f : Nat → List α) (n k : Nat) (hk : k < n) :
    ∃ pre post, ((List.range n).map f).flatten = pre ++ f k ++ post := by
  induction n with
  | zero => omega
  | succ n ih =>
    rcases Nat.lt_succ_iff_lt_or_eq.mp hk with h | h
    · obtain ⟨pre, post, hpp⟩ := ih h
      refine ⟨pre, post ++ f n, ?_⟩
      rw [List.range_succ, List.map_append, List.flatten_append, hpp]
      simp
    · subst h
      refine ⟨((List.range k).map f).flatten, [], ?_⟩
      rw [List.range_succ, List.map_append, List.flatten_append]
      simp

/-- Index arithmetic for the flattened cover/stego batch. -/
theorem reshape_index {Img : Type} (batch : List (CoverStegoPair Img)) :
    (reshapeData batch).length = 2 * batch.length
    ∧ (reshapeLabel batch).length = 2 * batch.length
    ∧ ∀ (i : Nat) (h : i < batch.length),
        (reshapeData batch).get? (2 * i) = some (batch.get ⟨i, h⟩).cover
        ∧ (reshapeData batch).get? (2 * i + 1) = some (batch.get ⟨i, h⟩).stego
        ∧ (reshapeLabel batch).get? (2 * i) = some 0
        ∧ (reshapeLabel batch).get? (2 * i + 1) = some 1 := by
  induction batch with
  | nil =>
    refine ⟨rfl, rfl, ?_⟩
    intro i h
    exact absurd h (Nat.not_lt_zero i)
  | cons p rest ih =>
    have hd : reshapeData (p :: rest) = p.cover :: p.stego :: reshapeData rest := rfl
    have hl : reshapeLabel (p :: rest) = 0 :: 1 :: reshapeLabel rest := rfl
    obtain ⟨ihd, ihl, ihi⟩ := ih
    refine ⟨?_, ?_, ?_⟩
    · rw [hd]; simp only [List.length_cons, ihd]; omega
    · rw [hl]; simp only [List.length_cons, ihl]; omega
    · intro i h
      cases i with
      | zero => exact ⟨rfl, rfl, rfl, rfl⟩
      | succ i =>
        have hi : i < rest.length := by
          simpa [Nat.succ_lt_succ_iff] using h
        obtain ⟨e1, e2, e3, e4⟩ := ihi i hi
        have harith : 2 * (i + 1) = 2 * i + 1 + 1 := by ring
        refine ⟨?_, ?_, ?_, ?_⟩
        · rw [hd, harith]; simp only [List.get?_cons_succ]; exact e1
        · rw [hd, harith]; simp only [List.get?_cons_succ]; exact e2
        · rw [hl, harith]; simp only [List.get?_cons_succ]; exact e3
        · rw [hl, harith]; simp only [List.get?_cons_succ]; exact e4

/-! ## Claim theorems -/

/-- C1: the claim says every construction of Net() yields the five-block
backbone; in fact Net.__init__ reads the names type1, type2, type3, which
are bound nowhere in the program (the classes are Type1, Type2, Type3), so
every Net() raises NameError at the self.group1 assignment, right after
self.pre is built, and no construction reaches the backbone assembly. -/
theorem c1_net_init_name_error :
    netInitRun = (["self.pre"], some ("self.group1", "type1"))
    ∧ "type1" ∉ moduleEnv ∧ "type2" ∉ moduleEnv ∧ "type3" ∉ moduleEnv
    ∧ "Type1" ∈ moduleEnv ∧ "Type2" ∈ moduleEnv ∧ "Type3" ∈ moduleEnv := by
  refine ⟨rfl, ?_, ?_, ?_, ?_, ?_, ?_⟩ <;> decide

/-- C2 counterexample: with one held-out pair evaluated fully correctly
(accuracy 1) at epoch 1 with best_acc 0 and TMP 190, the accuracy exceeds
the best accuracy seen so far, yet evaluate returns best_acc unchanged and
writes nothing to the checkpoint file, because epoch > TMP fails. -/
theorem c2_counterexample :
    (0 : ℚ) < evalAccuracy [[((0, 1), 1), ((0, 1), 1)]] 1
    ∧ evaluate Unit Unit [[((0, 1), 1), ((0, 1), 1)]] 1 1 190 0 () () none
        = (0, none) := by
  have hc : evalCorrect [[((0, 1), 1), ((0, 1), 1)]] = 2 := by decide
  constructor
  · unfold evalAccuracy
    rw [hc]
    norm_num
  · have hcond : ¬((0 : ℚ) < evalAccuracy [[((0, 1), 1), ((0, 1), 1)]] 1
        ∧ (190 : ℤ) < 1) := by
      rintro ⟨-, hlt⟩
      omega
    unfold evaluate
    rw [if_neg hcond]

/-- C2 (amended): evaluate saves the model state, optimizer state and
epoch to the checkpoint and returns the new accuracy exactly when the
accuracy exceeds best_acc AND the epoch exceeds TMP; otherwise the
checkpoint file and the returned best accuracy are unchanged. -/
theorem c2_checkpoint_rule (M O : Type) (batches : List (List Sample))
    (datasetLen : Nat) (epoch TMP : ℤ) (best_acc : ℚ) (m : M) (o : O)
    (file : Option (AllState M O)) :
    evaluate M O batches datasetLen epoch TMP best_acc m o file =
      if best_acc < ((evalCorrect batches : ℕ) : ℚ) / ((datasetLen : ℚ) * 2)
         ∧ TMP < epoch
      then (((evalCorrect batches : ℕ) : ℚ) / ((datasetLen : ℚ) * 2),
            some ⟨m, o, epoch⟩)
      else (best_acc, file) := rfl

/-- C3: whatever the parsed arguments, main stops with NameError at the
PARAMS_INIT_PATH assignment because PARAMS_INIT_NAME is bound nowhere; the
logger setup, the dataset and model construction and the training loop are
all later statements and none of them executes. -/
theorem c3_main_raises (a : Args) :
    (runMain a).2 = some ("PARAMS_INIT_PATH", "PARAMS_INIT_NAME")
    ∧ "setLogger_call" ∉ (runMain a).1
    ∧ "train_dataset" ∉ (runMain a).1
    ∧ "model" ∉ (runMain a).1
    ∧ "training_loop" ∉ (runMain a).1
    ∧ "PARAMS_INIT_NAME" ∉ moduleEnv ++ ["args"] := by
  simp only [runMain]
  refine ⟨rfl, ?_, ?_, ?_, ?_, ?_⟩ <;> decide

/-- C4: the 62-kernel HPF weight is created with requires_grad=False from
the build_filters values; initWeights leaves Conv2d weights without
requires_grad untouched, the optimizer param groups (weight-decay group
and rest group) contain only requires_grad parameters so the HPF weight is
in neither, and any number of optimizer steps leaves its value equal to
the build_filters output. -/
theorem c4_hpf_weights_fixed (gabor : ℚ → Nat → Nat → Mat) (hpfList : List Mat)
    (kaiming : List Mat → List Mat) (upds : List (List Mat → List Mat))
    (ps : List (PyParam (List Mat))) :
    (HPF_weight gabor hpfList).requires_grad = false
    ∧ initWeights_conv kaiming (HPF_weight gabor hpfList) = HPF_weight gabor hpfList
    ∧ HPF_weight gabor hpfList ∉ (param_groups ps).1
    ∧ HPF_weight gabor hpfList ∉ (param_groups ps).2
    ∧ (upds.foldl (fun p u => sgd_step u p)
          (initWeights_conv kaiming (HPF_weight gabor hpfList))).value
        = build_filters gabor hpfList := by
  refine ⟨rfl, rfl, ?_, ?_, ?_⟩
  · intro hmem
    have h2 := (List.mem_filter.mp hmem).2
    simp [HPF_weight] at h2
  · intro hmem
    have h2 := (List.mem_filter.mp hmem).2
    simp [HPF_weight] at h2
  · rw [sgd_fold_fixed upds _ rfl]
    rfl

/-- C5: the preprocessing applies the same 62-kernel filter bank to each
of the 3 color channels and clips: output channel c of the 186-channel
concatenation is kernel c % 62 of the shared bank convolved with color
channel c / 62 and passed through the TLU with threshold 2; TLU.forward
with threshold t is the elementwise clamp to [-t, t]; and every element of
the 186-channel output lies in [-2, 2]. -/
theorem c5_preprocessing (w : Fin 62 → Kernel5) (input : Fin 3 → Plane) :
    (∀ (c : Fin 186) (i j : ℤ),
        -2 ≤ Net.preprocess w input c i j ∧ Net.preprocess w input c i j ≤ 2)
    ∧ (∀ (c : Fin 186) (i j : ℤ),
        Net.preprocess w input c i j
          = TLU.forward 2
              (conv5 (w ⟨(c : ℕ) % 62, Nat.mod_lt _ (by norm_num)⟩)
                (input ⟨(c : ℕ) / 62, by have := c.isLt; omega⟩) i j))
    ∧ (∀ (t x : ℚ), TLU.forward t x = min (max x (-t)) t) := by
  refine ⟨?_, fun c i j => rfl, fun t x => rfl⟩
  intro c i j
  show -2 ≤ torch_clamp _ (-2) 2 ∧ torch_clamp _ (-2) 2 ≤ 2
  unfold torch_clamp
  constructor
  · exact le_min (le_max_right _ _) (by norm_num)
  · exact min_le_right _ _

/-- C6: MyDataset.__getitem__ stacks the cover image first and the stego
image second with labels [0, 1], and the reshape in train flattens a batch
of B pairs to 2B single images whose flattened labels stay aligned: image
2i is pair i cover with label 0, image 2i+1 is pair i stego with label 1. -/
theorem c6_paired_batch (Img : Type) (batch : List (CoverStegoPair Img)) :
    (∀ p : CoverStegoPair Img, MyDataset.getitem p = ([p.cover, p.stego], [0, 1]))
    ∧ (reshapeData batch).length = 2 * batch.length
    ∧ (reshapeLabel batch).length = 2 * batch.length
    ∧ ∀ (i : Nat) (h : i < batch.length),
        (reshapeData batch).get? (2 * i) = some (batch.get ⟨i, h⟩).cover
        ∧ (reshapeData batch).get? (2 * i + 1) = some (batch.get ⟨i, h⟩).stego
        ∧ (reshapeLabel batch).get? (2 * i) = some 0
        ∧ (reshapeLabel batch).get? (2 * i + 1) = some 1 :=
  ⟨fun _ => rfl, reshape_index batch⟩

/-- C6 witness: the statement at the singleton batch with cover 10 and
stego 20, index 0. -/
theorem c6_witness :
    (reshapeData [CoverStegoPair.mk (10 : Nat) 20]).get? (2 * 0)
        = some (([CoverStegoPair.mk (10 : Nat) 20].get ⟨0, by decide⟩).cover)
    ∧ (reshapeData [CoverStegoPair.mk (10 : Nat) 20]).get? (2 * 0 + 1)
        = some (([CoverStegoPair.mk (10 : Nat) 20].get ⟨0, by decide⟩).stego)
    ∧ (reshapeLabel [CoverStegoPair.mk (10 : Nat) 20]).get? (2 * 0) = some 0
    ∧ (reshapeLabel [CoverStegoPair.mk (10 : Nat) 20]).get? (2 * 0 + 1) = some 1 :=
  (c6_paired_batch Nat [CoverStegoPair.mk 10 20]).2.2.2 0 (by decide)

/-- C7: for every epoch from startEpoch up to 250, the epoch body runs the
scheduler step, the training pass, then (because epoch mod
EVAL_PRINT_FREQUENCY = epoch mod 1 = 0, never skipped) adjust_bn_stats
immediately after the training pass and before the held-out evaluation;
the full loop trace contains this contiguous segment for that epoch. -/
theorem c7_bn_after_each_epoch (startEpoch e : Nat)
    (h1 : startEpoch ≤ e) (h2 : e ≤ 250) :
    epochBody e = [TrainEvent.schedStep e, TrainEvent.trainPass e,
                   TrainEvent.adjustBn e, TrainEvent.evalPass e]
    ∧ ∃ pre post, trainingLoop startEpoch =
        pre ++ (TrainEvent.trainPass e :: TrainEvent.adjustBn e ::
                TrainEvent.evalPass e :: post) := by
  have hb : epochBody e = [TrainEvent.schedStep e, TrainEvent.trainPass e,
      TrainEvent.adjustBn e, TrainEvent.evalPass e] := by
    simp [epochBody, EVAL_PRINT_FREQUENCY, Nat.mod_one]
  refine ⟨hb, ?_⟩
  obtain ⟨pre, post, hsplit⟩ :=
    flatten_map_range_split (fun k => epochBody (startEpoch + k))
      (EPOCHS + 1 - startEpoch) (e - startEpoch) (by unfold EPOCHS; omega)
  have he : startEpoch + (e - startEpoch) = e := by omega
  rw [he] at hsplit
  refine ⟨pre ++ [TrainEvent.schedStep e], post, ?_⟩
  rw [trainingLoop, hsplit, hb]
  simp

/-- C7 witness: the statement at startEpoch 1, epoch 1. -/
theorem c7_witness :
    epochBody 1 = [TrainEvent.schedStep 1, TrainEvent.trainPass 1,
                   TrainEvent.adjustBn 1, TrainEvent.evalPass 1]
    ∧ ∃ pre post, trainingLoop 1 =
        pre ++ (TrainEvent.trainPass 1 :: TrainEvent.adjustBn 1 ::
                TrainEvent.evalPass 1 :: post) :=
  c7_bn_after_each_epoch 1 1 (le_refl 1) (by norm_num)

/-- C8: build_filters returns the padded hand-crafted filters in order
followed by exactly 32 Gabor kernels (8 orientations x 2 sigmas x 2
phases, in that loop order); the padding places each kernel at offset
(5 - size) / 2 from the top/left with the remainder on the bottom/right,
preserving its values and filling zeros elsewhere. -/
theorem c8_build_filters (gabor : ℚ → Nat → Nat → Mat) (hpfList : List Mat) :
    build_filters gabor hpfList = hpfList.map padTo5 ++ gaborFilters gabor
    ∧ (gaborFilters gabor).length = 32
    ∧ gaborFilters gabor =
        ((List.range 8).map (fun t =>
          [gabor (1 / 2) t 0, gabor (1 / 2) t 1, gabor 1 t 0, gabor 1 t 1])).flatten
    ∧ (∀ m : Mat, m.rows ≤ 5 → m.cols ≤ 5 →
        (padTo5 m).rows = 5 ∧ (padTo5 m).cols = 5
        ∧ (∀ r c, r < m.rows → c < m.cols →
            (padTo5 m).entry ((5 - m.rows) / 2 + r) ((5 - m.cols) / 2 + c)
              = m.entry r c)
        ∧ (∀ i j, ((i < (5 - m.rows) / 2 ∨ (5 - m.rows) / 2 + m.rows ≤ i) ∨
                   (j < (5 - m.cols) / 2 ∨ (5 - m.cols) / 2 + m.cols ≤ j)) →
            (padTo5 m).entry i j = 0)) := by
  refine ⟨rfl, rfl, rfl, ?_⟩
  intro m h5r h5c
  refine ⟨rfl, rfl, ?_, ?_⟩
  · intro r c hr hc
    have ha : (5 - m.rows) / 2 + r - (5 - m.rows) / 2 = r := by omega
    have hb : (5 - m.cols) / 2 + c - (5 - m.cols) / 2 = c := by omega
    rw [padTo5_entry, if_pos ⟨by omega, by omega, by omega, by omega⟩, ha, hb]
  · intro i j hout
    rw [padTo5_entry, if_neg (by omega)]

/-- C8 witness: padding a 2 x 3 constant kernel preserves the value at the
offset position. -/
theorem c8_witness :
    (padTo5 (Mat.mk 2 3 fun _ _ => (7 : ℚ))).entry ((5 - 2) / 2 + 0) ((5 - 3) / 2 + 0)
      = 7 :=
  ((c8_build_filters (fun _ _ _ => Mat.mk 5 5 fun _ _ => 0) []).2.2.2
      (Mat.mk 2 3 fun _ _ => (7 : ℚ)) (by norm_num) (by norm_num)).2.2.1
    0 0 (by norm_num) (by norm_num)

/-- C9: the best accuracy returned by evaluate is at least the best_acc
argument: it is either best_acc unchanged or the strictly larger new
accuracy; consequently, across any sequence of evaluate calls threading
the best accuracy, the tracked best is monotonically non-decreasing. -/
theorem c9_best_monotone (M O : Type) (batches : List (List Sample))
    (datasetLen : Nat) (epoch TMP : ℤ) (best_acc : ℚ) (m : M) (o : O)
    (file : Option (AllState M O)) :
    best_acc ≤ (evaluate M O batches datasetLen epoch TMP best_acc m o file).1
    ∧ ((evaluate M O batches datasetLen epoch TMP best_acc m o file).1 = best_acc
       ∨ (best_acc < (evaluate M O batches datasetLen epoch TMP best_acc m o file).1
          ∧ (evaluate M O batches datasetLen epoch TMP best_acc m o file).1
              = evalAccuracy batches datasetLen))
    ∧ ∀ (calls : List (EvalCall M O)) (st : ℚ × Option (AllState M O)),
        st.1 ≤ (evalSequence M O calls st).1 := by
  refine ⟨evaluate_fst_le M O batches datasetLen epoch TMP best_acc m o file,
    ?_, fun calls st => evalSequence_fst_le M O calls st⟩
  unfold evaluate
  by_cases h : best_acc < evalAccuracy batches datasetLen ∧ TMP < epoch
  · rw [if_pos h]
    exact Or.inr ⟨h.1, rfl⟩
  · rw [if_neg h]
    exact Or.inl rfl

/-- C10: after reset and any nonempty sequence of update(val, n) calls
with n at least 1, the count is the sum of the n arguments, the sum is the
sum of the val * n products, val is the last val argument, avg is
sum / count, and the invariant avg * count = sum holds. -/
theorem c10_average_meter (us : List (ℚ × Nat)) (hne : us ≠ [])
    (hn : ∀ u ∈ us, 1 ≤ u.2) :
    (runUpdates us).count = (us.map (fun u => u.2)).sum
    ∧ (runUpdates us).sum = (us.map (fun u => u.1 * (u.2 : ℚ))).sum
    ∧ (runUpdates us).val = (us.getLast hne).1
    ∧ (runUpdates us).avg = (runUpdates us).sum / (((runUpdates us).count : ℕ) : ℚ)
    ∧ (runUpdates us).avg * (((runUpdates us).count : ℕ) : ℚ) = (runUpdates us).sum := by
  obtain ⟨h1, h2, h3, h4⟩ := runUpdates_fields us hne AverageMeter.reset
  have hcount : (runUpdates us).count = (us.map (fun u => u.2)).sum := by
    simpa [AverageMeter.reset, runUpdates] using h1
  have hsum : (runUpdates us).sum = (us.map (fun u => u.1 * (u.2 : ℚ))).sum := by
    simpa [AverageMeter.reset, runUpdates] using h2
  have h3r : (runUpdates us).val = (us.getLast hne).1 := h3
  have h4r : (runUpdates us).avg
      = (runUpdates us).sum / (((runUpdates us).count : ℕ) : ℚ) := h4
  have hpos : 1 ≤ (us.map (fun u => u.2)).sum := by
    cases us with
    | nil => exact absurd rfl hne
    | cons u rest =>
      have hu : 1 ≤ u.2 := hn u (List.mem_cons_self u rest)
      simp only [List.map_cons, List.sum_cons]
      omega
  have hcast : (((runUpdates us).count : ℕ) : ℚ) ≠ 0 := by
    rw [hcount]
    exact_mod_cast Nat.one_le_iff_ne_zero.mp hpos
  refine ⟨hcount, hsum, h3r, h4r, ?_⟩
  rw [h4r, div_mul_cancel₀ _ hcast]

/-- C10 witness: the statement at the update sequence (3, 2), (5, 1). -/
theorem c10_witness :
    (runUpdates [((3 : ℚ), 2), ((5 : ℚ), 1)]).avg
        * (((runUpdates [((3 : ℚ), 2), ((5 : ℚ), 1)]).count : ℕ) : ℚ)
      = (runUpdates [((3 : ℚ), 2), ((5 : ℚ), 1)]).sum :=
  (c10_average_meter [((3 : ℚ), 2), ((5 : ℚ), 1)] (by decide) (by decide)).2.2.2.2

end UCNet
